import Mathlib

/-!
Shallow embedding of the `PayNova` payment-escrow contract
(`src/contract/src/PayNova.sol`) and verification of the specification
claims about it.

Modelling conventions:
* `Address` is `Nat`; the zero address is `0`.  EVM storage for a mapping
  returns the all-zero struct for an absent key, and the first enum member
  (`Pending`) has tag 0, so the default record has `status = Pending`.
* `keccak256(abi.encodePacked(ref))` is modelled by an injective encoding
  of the reference string into `Nat` (`hashRef`); hash collisions are
  ignored, as usual.
* External calls (native sends, ERC-20 `transferFrom` / `transfer`) are
  modelled by a success oracle `Env`.  A `require` failure reverts the
  whole call: the returned store is the store at the abort point, and
  because the contract performs all storage writes after all `require`s,
  that store equals the input store.
* Completed external value transfers and storage writes are recorded, in
  program order, in an event trace; this makes the ordering of transfers
  versus state commits (the reentrancy question) and the amounts moved
  (conservation) observable.
-/

namespace PayNova

abbrev Address := Nat

/-- Solidity `enum TxStatus`; `Pending` is tag 0. -/
inductive TxStatus
  | Pending
  | Paid
  | Cancelled
  deriving DecidableEq, Repr

/-- The `Transaction` struct stored per reference hash. -/
structure Transaction where
  «from» : Address
  «to» : Address
  amount : Nat
  token : Address
  timestamp : Nat
  status : TxStatus
  refunded : Nat
  deriving DecidableEq, Repr

/-- The all-zero struct an EVM mapping yields for an absent key. -/
def emptyTransaction : Transaction :=
  { «from» := 0, «to» := 0, amount := 0, token := 0, timestamp := 0,
    status := TxStatus.Pending, refunded := 0 }

/-- Storage `mapping(bytes32 => Transaction) public transactions`, as an
association list from reference hash to record. -/
abbrev Store := List (Nat × Transaction)

/-- Mapping read: first binding for the key, or the all-zero struct. -/
def getTx (st : Store) (h : Nat) : Transaction :=
  match st.lookup h with
  | some t => t
  | none => emptyTransaction

/-- Mapping write: newest binding shadows older ones. -/
def setTx (st : Store) (h : Nat) (t : Transaction) : Store :=
  (h, t) :: st

/-- Model of `keccak256(abi.encodePacked(ref))`: an injective encoding of
the string into `Nat` (code points in base 0x110000, with a leading 1). -/
def hashRef (ref : String) : Nat :=
  ref.data.foldl (fun a c => a * 1114112 + c.toNat) 1

/-- The error taxonomy of the specification, one per `require` message. -/
inductive PayError
  | InvalidRecipient
  | InvalidAmount
  | EmptyReference
  | ReferenceAlreadyUsed
  | Unauthorized
  | InvalidState
  | InsufficientFunds
  | TransferFailed
  deriving DecidableEq, Repr

/-- Durable effects of a call, in program order: completed external value
transfers and storage writes. -/
inductive Event
  | nativePay (dst : Address) (amt : Nat)
  | tokenPull (token src : Address) (amt : Nat)
  | tokenPay (token dst : Address) (amt : Nat)
  | storeWrite (h : Nat) (t : Transaction)
  deriving DecidableEq, Repr

/-- Success oracle for the external calls a settlement makes. -/
structure Env where
  nativeOk : Address → Nat → Bool
  pullOk : Address → Address → Nat → Bool
  payOk : Address → Address → Nat → Bool

/-- Result of one contract call: post-call store, return value or revert
error, and the trace of durable effects (empty on revert). -/
structure CallResult (α : Type) where
  store : Store
  result : Except PayError α
  events : List Event
  deriving Repr

/-- Lines 152-154 of `executePay`: the storage update on success. -/
def paidTxn (txn : Transaction) (excess now : Nat) : Transaction :=
  { txn with status := TxStatus.Paid, refunded := excess, timestamp := now }

/-- Lines 170-171 of `cancelTransaction`: the storage update on success. -/
def cancelledTxn (txn : Transaction) (now : Nat) : Transaction :=
  { txn with status := TxStatus.Cancelled, timestamp := now }

/-- Function `generateTransaction(recipient, amount, token, ref)` (lines 68-94),
called by `sender` at time `now`. -/
def generateTransaction (st : Store) (sender : Address) (now : Nat)
    (recipient : Address) (amount : Nat) (token : Address) (ref : String) :
    CallResult Nat :=
  if recipient = 0 then
    { store := st, result := Except.error PayError.InvalidRecipient, events := [] }
  else if amount = 0 then
    { store := st, result := Except.error PayError.InvalidAmount, events := [] }
  else if ref.length = 0 then
    { store := st, result := Except.error PayError.EmptyReference, events := [] }
  else if (getTx st (hashRef ref)).«from» ≠ 0 then
    { store := st, result := Except.error PayError.ReferenceAlreadyUsed, events := [] }
  else
    { store := setTx st (hashRef ref)
        { «from» := sender, «to» := recipient, amount := amount, token := token,
          timestamp := now, status := TxStatus.Pending, refunded := 0 },
      result := Except.ok (hashRef ref),
      events := [Event.storeWrite (hashRef ref)
        { «from» := sender, «to» := recipient, amount := amount, token := token,
          timestamp := now, status := TxStatus.Pending, refunded := 0 }] }

/-- Native branch of `executePay` (lines 116-131 plus 151-157).  Note the
source sends `msg.value` — not `amount` — to the recipient (line 124), and
then additionally refunds `excess` to the sender (line 129). -/
def settleNative (env : Env) (st : Store) (sender : Address) (now : Nat)
    (refHash : Nat) (txn : Transaction) (msgValue : Nat) : CallResult Nat :=
  if txn.amount ≤ msgValue then
    if env.nativeOk txn.«to» msgValue = true then
      if 0 < msgValue - txn.amount then
        if env.nativeOk sender (msgValue - txn.amount) = true then
          { store := setTx st refHash (paidTxn txn (msgValue - txn.amount) now),
            result := Except.ok (msgValue - txn.amount),
            events := [Event.nativePay txn.«to» msgValue,
                       Event.nativePay sender (msgValue - txn.amount),
                       Event.storeWrite refHash (paidTxn txn (msgValue - txn.amount) now)] }
        else { store := st, result := Except.error PayError.TransferFailed, events := [] }
      else
        { store := setTx st refHash (paidTxn txn (msgValue - txn.amount) now),
          result := Except.ok (msgValue - txn.amount),
          events := [Event.nativePay txn.«to» msgValue,
                     Event.storeWrite refHash (paidTxn txn (msgValue - txn.amount) now)] }
    else { store := st, result := Except.error PayError.TransferFailed, events := [] }
  else { store := st, result := Except.error PayError.InsufficientFunds, events := [] }

/-- ERC-20 branch of `executePay` (lines 132-148 plus 151-157). -/
def settleToken (env : Env) (st : Store) (sender : Address) (now : Nat)
    (refHash : Nat) (txn : Transaction) (sentAmount : Nat) : CallResult Nat :=
  if txn.amount ≤ sentAmount then
    if env.pullOk txn.token sender sentAmount = true then
      if env.payOk txn.token txn.«to» txn.amount = true then
        if 0 < sentAmount - txn.amount then
          if env.payOk txn.token sender (sentAmount - txn.amount) = true then
            { store := setTx st refHash (paidTxn txn (sentAmount - txn.amount) now),
              result := Except.ok (sentAmount - txn.amount),
              events := [Event.tokenPull txn.token sender sentAmount,
                         Event.tokenPay txn.token txn.«to» txn.amount,
                         Event.tokenPay txn.token sender (sentAmount - txn.amount),
                         Event.storeWrite refHash (paidTxn txn (sentAmount - txn.amount) now)] }
          else { store := st, result := Except.error PayError.TransferFailed, events := [] }
        else
          { store := setTx st refHash (paidTxn txn (sentAmount - txn.amount) now),
            result := Except.ok (sentAmount - txn.amount),
            events := [Event.tokenPull txn.token sender sentAmount,
                       Event.tokenPay txn.token txn.«to» txn.amount,
                       Event.storeWrite refHash (paidTxn txn (sentAmount - txn.amount) now)] }
      else { store := st, result := Except.error PayError.TransferFailed, events := [] }
    else { store := st, result := Except.error PayError.TransferFailed, events := [] }
  else { store := st, result := Except.error PayError.InsufficientFunds, events := [] }

/-- Function `executePay(ref, sentAmount)` (lines 105-158), called by `sender` with
attached native value `msgValue` at time `now`.  The only precondition
checked by the source is `txn.status == Pending` (line 108). -/
def executePay (env : Env) (st : Store) (sender : Address) (now : Nat)
    (ref : String) (sentAmount : Nat) (msgValue : Nat) : CallResult Nat :=
  if (getTx st (hashRef ref)).status = TxStatus.Pending then
    if (getTx st (hashRef ref)).token = 0 then
      settleNative env st sender now (hashRef ref) (getTx st (hashRef ref)) msgValue
    else
      settleToken env st sender now (hashRef ref) (getTx st (hashRef ref)) sentAmount
  else { store := st, result := Except.error PayError.InvalidState, events := [] }

/-- Function `cancelTransaction(refHash)` (lines 165-174). -/
def cancelTransaction (st : Store) (sender : Address) (now : Nat)
    (refHash : Nat) : CallResult Unit :=
  if (getTx st refHash).«from» ≠ sender then
    { store := st, result := Except.error PayError.Unauthorized, events := [] }
  else if (getTx st refHash).status ≠ TxStatus.Pending then
    { store := st, result := Except.error PayError.InvalidState, events := [] }
  else
    { store := setTx st refHash (cancelledTxn (getTx st refHash) now),
      result := Except.ok (),
      events := [Event.storeWrite refHash (cancelledTxn (getTx st refHash) now)] }

/-- Function `getTransaction(ref)` (lines 181-184): pure lookup. -/
def getTransaction (st : Store) (ref : String) : Transaction :=
  getTx st (hashRef ref)

/-- One ledger call, for reasoning about operation sequences. -/
inductive Op
  | generate (sender now recipient amount token : Nat) (ref : String)
  | settle (env : Env) (sender now : Nat) (ref : String) (sentAmount msgValue : Nat)
  | cancel (sender now refHash : Nat)

/-- Store after one call (a reverted call leaves the store unchanged). -/
def applyOp (st : Store) : Op → Store
  | Op.generate s n r a t ref => (generateTransaction st s n r a t ref).store
  | Op.settle env s n ref sa mv => (executePay env st s n ref sa mv).store
  | Op.cancel s n h => (cancelTransaction st s n h).store

/-- Store after a sequence of calls. -/
def applyOps (st : Store) (ops : List Op) : Store :=
  ops.foldl applyOp st

/-- Native value carried by one event to destination `dst`. -/
def eventNativeAmt (dst : Address) : Event → Nat
  | Event.nativePay d a => if d = dst then a else 0
  | _ => 0

/-- Total native value delivered to `dst` by a trace. -/
def nativeDeliveredTo (evs : List Event) (dst : Address) : Nat :=
  (evs.map (eventNativeAmt dst)).sum

/-- Native value carried by one event, to anyone. -/
def eventNativeOut : Event → Nat
  | Event.nativePay _ a => a
  | _ => 0

/-- Total native value leaving the ledger in a trace. -/
def nativeTotalOut (evs : List Event) : Nat :=
  (evs.map eventNativeOut).sum

/-- An all-successful external-call oracle. -/
def envAllOk : Env :=
  { nativeOk := fun _ _ => true, pullOk := fun _ _ _ => true, payOk := fun _ _ _ => true }

/-! ### Concrete instances used to exhibit behaviours of the code -/

/-- A ledger holding one Pending native-currency record: `from = 1`,
`to = 2`, `amount = 1`, reference `"ref1"`. -/
def c1Store : Store :=
  setTx [] (hashRef "ref1")
    { «from» := 1, «to» := 2, amount := 1, token := 0, timestamp := 0,
      status := TxStatus.Pending, refunded := 0 }

/-- A ledger holding one Pending native-currency record created by
address 1: `from = 1`, `to = 2`, `amount = 5`, reference `"ref2"`. -/
def c2Store : Store :=
  setTx [] (hashRef "ref2")
    { «from» := 1, «to» := 2, amount := 5, token := 0, timestamp := 0,
      status := TxStatus.Pending, refunded := 0 }

/-- From the empty ledger: one `executePay` call on the never-generated
reference `"p"` with no attached value. -/
def c3Ops : List Op := [Op.settle envAllOk 2 10 "p" 0 0]

/-- Ledger after a successful `generateTransaction` of reference
`"ref6"` by address 1 (recipient 3, amount 5, native token). -/
def c6Store : Store := (generateTransaction [] 1 0 3 5 0 "ref6").store

/-- Ledger after a successful `generateTransaction` of reference
`"ref9"` by address 1 (recipient 3, amount 5, native token). -/
def c9Store : Store := (generateTransaction [] 1 0 3 5 0 "ref9").store

/-! ### Store lemmas -/

theorem getTx_setTx_same (st : Store) (h : Nat) (t : Transaction) :
    getTx (setTx st h t) h = t := by
  simp [getTx, setTx, List.lookup]

theorem getTx_setTx_other (st : Store) (h k : Nat) (t : Transaction) (hne : k ≠ h) :
    getTx (setTx st h t) k = getTx st k := by
  simp [getTx, setTx, List.lookup, beq_false_of_ne hne]

theorem paidTxn_fields (txn : Transaction) (x now : Nat) :
    (paidTxn txn x now).«from» = txn.«from» ∧ (paidTxn txn x now).«to» = txn.«to» ∧
    (paidTxn txn x now).amount = txn.amount ∧ (paidTxn txn x now).token = txn.token ∧
    (paidTxn txn x now).status = TxStatus.Paid ∧ (paidTxn txn x now).refunded = x ∧
    (paidTxn txn x now).timestamp = now := by
  simp [paidTxn]

theorem cancelledTxn_fields (txn : Transaction) (now : Nat) :
    (cancelledTxn txn now).«from» = txn.«from» ∧ (cancelledTxn txn now).«to» = txn.«to» ∧
    (cancelledTxn txn now).amount = txn.amount ∧ (cancelledTxn txn now).token = txn.token ∧
    (cancelledTxn txn now).status = TxStatus.Cancelled ∧
    (cancelledTxn txn now).refunded = txn.refunded ∧
    (cancelledTxn txn now).timestamp = now := by
  simp [cancelledTxn]

/-! ### Shape lemmas: every call either reverts, leaving the store
untouched, or commits exactly one storage write. -/

theorem settleNative_shape (env : Env) (st : Store) (sender now rh : Nat)
    (txn : Transaction) (mv : Nat) :
    (∃ e, settleNative env st sender now rh txn mv =
        { store := st, result := Except.error e, events := [] }) ∨
    ((settleNative env st sender now rh txn mv).store =
        setTx st rh (paidTxn txn (mv - txn.amount) now) ∧
     (settleNative env st sender now rh txn mv).result = Except.ok (mv - txn.amount)) := by
  by_cases h1 : txn.amount ≤ mv
  · by_cases h2 : env.nativeOk txn.«to» mv = true
    · by_cases h3 : 0 < mv - txn.amount
      · by_cases h4 : env.nativeOk sender (mv - txn.amount) = true
        · right; simp [settleNative, h1, h2, h3, h4]
        · left; exact ⟨PayError.TransferFailed, by simp [settleNative, h1, h2, h3, h4]⟩
      · right; simp [settleNative, h1, h2, h3]
    · left; exact ⟨PayError.TransferFailed, by simp [settleNative, h1, h2]⟩
  · left; exact ⟨PayError.InsufficientFunds, by simp [settleNative, h1]⟩

theorem settleToken_shape (env : Env) (st : Store) (sender now rh : Nat)
    (txn : Transaction) (sa : Nat) :
    (∃ e, settleToken env st sender now rh txn sa =
        { store := st, result := Except.error e, events := [] }) ∨
    ((settleToken env st sender now rh txn sa).store =
        setTx st rh (paidTxn txn (sa - txn.amount) now) ∧
     (settleToken env st sender now rh txn sa).result = Except.ok (sa - txn.amount)) := by
  by_cases h1 : txn.amount ≤ sa
  · by_cases h2 : env.pullOk txn.token sender sa = true
    · by_cases h3 : env.payOk txn.token txn.«to» txn.amount = true
      · by_cases h4 : 0 < sa - txn.amount
        · by_cases h5 : env.payOk txn.token sender (sa - txn.amount) = true
          · right; simp [settleToken, h1, h2, h3, h4, h5]
          · left; exact ⟨PayError.TransferFailed, by simp [settleToken, h1, h2, h3, h4, h5]⟩
        · right; simp [settleToken, h1, h2, h3, h4]
      · left; exact ⟨PayError.TransferFailed, by simp [settleToken, h1, h2, h3]⟩
    · left; exact ⟨PayError.TransferFailed, by simp [settleToken, h1, h2]⟩
  · left; exact ⟨PayError.InsufficientFunds, by simp [settleToken, h1]⟩

theorem executePay_shape (env : Env) (st : Store) (sender now : Nat)
    (ref : String) (sa mv : Nat) :
    (∃ e, executePay env st sender now ref sa mv =
        { store := st, result := Except.error e, events := [] }) ∨
    (∃ x, (executePay env st sender now ref sa mv).store =
        setTx st (hashRef ref) (paidTxn (getTx st (hashRef ref)) x now) ∧
     (executePay env st sender now ref sa mv).result = Except.ok x) := by
  by_cases h1 : (getTx st (hashRef ref)).status = TxStatus.Pending
  · by_cases h2 : (getTx st (hashRef ref)).token = 0
    · have hs := settleNative_shape env st sender now (hashRef ref) (getTx st (hashRef ref)) mv
      rw [executePay, if_pos h1, if_pos h2]
      rcases hs with ⟨e, he⟩ | ⟨hst, hr⟩
      · exact Or.inl ⟨e, he⟩
      · exact Or.inr ⟨mv - (getTx st (hashRef ref)).amount, hst, hr⟩
    · have hs := settleToken_shape env st sender now (hashRef ref) (getTx st (hashRef ref)) sa
      rw [executePay, if_pos h1, if_neg h2]
      rcases hs with ⟨e, he⟩ | ⟨hst, hr⟩
      · exact Or.inl ⟨e, he⟩
      · exact Or.inr ⟨sa - (getTx st (hashRef ref)).amount, hst, hr⟩
  · rw [executePay, if_neg h1]
    exact Or.inl ⟨PayError.InvalidState, rfl⟩

theorem generateTransaction_shape (st : Store) (sender now recipient amount token : Nat)
    (ref : String) :
    (∃ e, generateTransaction st sender now recipient amount token ref =
        { store := st, result := Except.error e, events := [] }) ∨
    ((getTx st (hashRef ref)).«from» = 0 ∧
     (generateTransaction st sender now recipient amount token ref).store =
        setTx st (hashRef ref)
          { «from» := sender, «to» := recipient, amount := amount, token := token,
            timestamp := now, status := TxStatus.Pending, refunded := 0 } ∧
     (generateTransaction st sender now recipient amount token ref).result =
        Except.ok (hashRef ref)) := by
  by_cases h1 : recipient = 0
  · exact Or.inl ⟨PayError.InvalidRecipient, by simp [generateTransaction, h1]⟩
  · by_cases h2 : amount = 0
    · exact Or.inl ⟨PayError.InvalidAmount, by simp [generateTransaction, h1, h2]⟩
    · by_cases h3 : ref.length = 0
      · exact Or.inl ⟨PayError.EmptyReference, by simp [generateTransaction, h1, h2, h3]⟩
      · by_cases h4 : (getTx st (hashRef ref)).«from» = 0
        · exact Or.inr ⟨h4, by simp [generateTransaction, h1, h2, h3, h4]⟩
        · exact Or.inl ⟨PayError.ReferenceAlreadyUsed,
            by simp [generateTransaction, h1, h2, h3, h4]⟩

theorem cancelTransaction_shape (st : Store) (sender now rh : Nat) :
    (∃ e, cancelTransaction st sender now rh =
        { store := st, result := Except.error e, events := [] }) ∨
    ((getTx st rh).«from» = sender ∧ (getTx st rh).status = TxStatus.Pending ∧
     (cancelTransaction st sender now rh).store =
        setTx st rh (cancelledTxn (getTx st rh) now) ∧
     (cancelTransaction st sender now rh).result = Except.ok ()) := by
  by_cases h1 : (getTx st rh).«from» = sender
  · by_cases h2 : (getTx st rh).status = TxStatus.Pending
    · exact Or.inr ⟨h1, h2, by simp [cancelTransaction, h1, h2]⟩
    · exact Or.inl ⟨PayError.InvalidState, by simp [cancelTransaction, h1, h2]⟩
  · exact Or.inl ⟨PayError.Unauthorized, by simp [cancelTransaction, h1]⟩

/-! ### The `from` field of an occupied slot is stable under every call. -/

theorem from_getTx_applyOp (st : Store) (op : Op) (h : Nat)
    (hf : (getTx st h).«from» ≠ 0) :
    (getTx (applyOp st op) h).«from» = (getTx st h).«from» := by
  cases op with
  | generate s n r a t ref =>
      rcases generateTransaction_shape st s n r a t ref with ⟨e, he⟩ | ⟨h0, hst, _⟩
      · simp [applyOp, he]
      · by_cases hk : h = hashRef ref
        · exact absurd (hk ▸ hf) (by simp [h0, hk])
        · simp [applyOp, hst, getTx_setTx_other st (hashRef ref) h _ hk]
  | settle env s n ref sa mv =>
      rcases executePay_shape env st s n ref sa mv with ⟨e, he⟩ | ⟨x, hst, _⟩
      · simp [applyOp, he]
      · by_cases hk : h = hashRef ref
        · subst hk; simp [applyOp, hst, getTx_setTx_same, paidTxn]
        · simp [applyOp, hst, getTx_setTx_other st (hashRef ref) h _ hk]
  | cancel s n rh =>
      rcases cancelTransaction_shape st s n rh with ⟨e, he⟩ | ⟨_, _, hst, _⟩
      · simp [applyOp, he]
      · by_cases hk : h = rh
        · subst hk; simp [applyOp, hst, getTx_setTx_same, cancelledTxn]
        · simp [applyOp, hst, getTx_setTx_other st rh h _ hk]

/-- A successful native settlement emits the recipient transfer as its
first durable effect and the `Paid` storage write as its last: the
external value transfer strictly precedes the state commit. -/
theorem settleNative_ok_events (env : Env) (st : Store) (sender now rh : Nat)
    (txn : Transaction) (mv x : Nat)
    (hok : (settleNative env st sender now rh txn mv).result = Except.ok x) :
    ∃ mid, (settleNative env st sender now rh txn mv).events =
      Event.nativePay txn.«to» mv ::
        (mid ++ [Event.storeWrite rh (paidTxn txn x now)]) := by
  by_cases h1 : txn.amount ≤ mv
  · by_cases h2 : env.nativeOk txn.«to» mv = true
    · by_cases h3 : 0 < mv - txn.amount
      · by_cases h4 : env.nativeOk sender (mv - txn.amount) = true
        · have hx : mv - txn.amount = x := by
            have h5 := hok
            simp [settleNative, h1, h2, h3, h4] at h5
            exact h5
          subst hx
          exact ⟨[Event.nativePay sender (mv - txn.amount)],
            by simp [settleNative, h1, h2, h3, h4]⟩
        · simp [settleNative, h1, h2, h3, h4] at hok
      · have hx : mv - txn.amount = x := by
          have h5 := hok
          simp [settleNative, h1, h2, h3] at h5
          exact h5
        subst hx
        exact ⟨[], by simp [settleNative, h1, h2, h3]⟩
    · simp [settleNative, h1, h2] at hok
  · simp [settleNative, h1] at hok

theorem from_getTx_applyOps (ops : List Op) (st : Store) (h : Nat)
    (hf : (getTx st h).«from» ≠ 0) :
    (getTx (applyOps st ops) h).«from» = (getTx st h).«from» := by
  induction ops generalizing st with
  | nil => rfl
  | cons op rest ih =>
      have h1 := from_getTx_applyOp st op h hf
      have h2 : (getTx (applyOp st op) h).«from» ≠ 0 := by rw [h1]; exact hf
      have : applyOps st (op :: rest) = applyOps (applyOp st op) rest := rfl
      rw [this, ih (applyOp st op) h2, h1]

/-! ### Claim theorems -/

/-- Claim C1.  Refuted on the code: settling the native-currency record
`{amount = 1, to = 2}` with attached value `v = 2` delivers the full
attached value 2 — not the required amount 1 — to the recipient, and
additionally refunds `v - a = 1` to the caller, so total native value
leaving the ledger is 3, not `v = 2`: value is created out of the
contract's standing balance. -/
theorem C1_native_settle_pays_attached_value_not_amount :
    (getTransaction c1Store "ref1").amount = 1 ∧
    (executePay envAllOk c1Store 1 7 "ref1" 0 2).result = Except.ok 1 ∧
    nativeDeliveredTo (executePay envAllOk c1Store 1 7 "ref1" 0 2).events 2 = 2 ∧
    nativeDeliveredTo (executePay envAllOk c1Store 1 7 "ref1" 0 2).events 1 = 1 ∧
    nativeTotalOut (executePay envAllOk c1Store 1 7 "ref1" 0 2).events = 3 :=
  ⟨rfl, rfl, rfl, rfl, rfl⟩

/-- Claim C2.  Refuted on the code: `executePay` checks only
`status == Pending`, never `msg.sender == from`.  Address 9, which is not
the creator (`from = 1`) of the Pending record under `"ref2"`, settles it
successfully; and settling the never-generated reference `"ghost"` (whose
default storage slot has status `Pending`) also succeeds, writing a
phantom `Paid` record instead of failing. -/
theorem C2_settle_lacks_authorization_and_existence_checks :
    ((getTx c2Store (hashRef "ref2")).«from» = 1 ∧
     (getTx c2Store (hashRef "ref2")).status = TxStatus.Pending ∧
     (executePay envAllOk c2Store 9 3 "ref2" 0 5).result = Except.ok 0 ∧
     (getTx (executePay envAllOk c2Store 9 3 "ref2" 0 5).store (hashRef "ref2")).status
        = TxStatus.Paid) ∧
    ((executePay envAllOk [] 9 3 "ghost" 0 0).result = Except.ok 0 ∧
     (executePay envAllOk [] 9 3 "ghost" 0 0).store ≠ []) :=
  ⟨⟨rfl, rfl, rfl, rfl⟩, rfl, by decide⟩

/-- Claim C3.  Refuted on the code: from the empty ledger, the
generate/settle/cancel sequence `c3Ops` (a single `executePay` on the
never-generated reference `"p"`) leaves a `Paid` record whose `from`
field is the zero address; a subsequent `generateTransaction` with the
same reference then passes the `from == 0` existence check and resets
the slot's status from `Paid` back to `Pending`. -/
theorem C3_paid_status_returns_to_pending :
    (getTx (applyOps [] c3Ops) (hashRef "p")).status = TxStatus.Paid ∧
    (getTx (applyOps [] c3Ops) (hashRef "p")).«from» = 0 ∧
    (generateTransaction (applyOps [] c3Ops) 3 11 4 7 0 "p").result =
      Except.ok (hashRef "p") ∧
    (getTx (generateTransaction (applyOps [] c3Ops) 3 11 4 7 0 "p").store
        (hashRef "p")).status = TxStatus.Pending :=
  ⟨rfl, rfl, rfl, rfl⟩

/-- Claim C4.  Refuted on the code (evidence theorem): in every
successful native-currency settlement the first durable effect is the
external value transfer to the recipient and the last is the storage
write that marks the record `Paid` — the state mutation is committed
strictly after the external transfers, not before or atomically with
them, so a re-entering recipient still observes the record `Pending`. -/
theorem C4_transfers_precede_paid_write (env : Env) (st : Store)
    (sender now : Nat) (ref : String) (sa mv x : Nat)
    (htok : (getTx st (hashRef ref)).token = 0)
    (hok : (executePay env st sender now ref sa mv).result = Except.ok x) :
    ∃ mid, (executePay env st sender now ref sa mv).events =
      Event.nativePay (getTx st (hashRef ref)).«to» mv ::
        (mid ++ [Event.storeWrite (hashRef ref)
                  (paidTxn (getTx st (hashRef ref)) x now)]) := by
  by_cases h1 : (getTx st (hashRef ref)).status = TxStatus.Pending
  · rw [executePay, if_pos h1, if_pos htok] at hok ⊢
    exact settleNative_ok_events env st sender now (hashRef ref)
      (getTx st (hashRef ref)) mv x hok
  · rw [executePay, if_neg h1] at hok
    exact absurd hok (by simp)

/-- Witness for C4, at the `c1Store` settlement of C1. -/
theorem C4_witness :
    ∃ mid, (executePay envAllOk c1Store 1 7 "ref1" 0 2).events =
      Event.nativePay (getTx c1Store (hashRef "ref1")).«to» 2 ::
        (mid ++ [Event.storeWrite (hashRef "ref1")
                  (paidTxn (getTx c1Store (hashRef "ref1")) 1 7)]) :=
  C4_transfers_precede_paid_write envAllOk c1Store 1 7 "ref1" 0 2 1 rfl rfl

/-- Claim C5.  Refuted on the code: settling the never-generated
reference `"q"` from the empty ledger succeeds and stores a record with
`status = Paid` but `amount = 0` and `to = 0`, so a stored (settled)
record with zero amount and zero recipient is reachable, and a zero
`amount` from `getTransaction` is not an unambiguous not-found signal. -/
theorem C5_settled_record_with_zero_amount :
    (executePay envAllOk [] 2 10 "q" 0 0).result = Except.ok 0 ∧
    (getTransaction (executePay envAllOk [] 2 10 "q" 0 0).store "q").status
      = TxStatus.Paid ∧
    (getTransaction (executePay envAllOk [] 2 10 "q" 0 0).store "q").amount = 0 ∧
    (getTransaction (executePay envAllOk [] 2 10 "q" 0 0).store "q").«to» = 0 :=
  ⟨rfl, rfl, rfl, rfl⟩

/-- Claim C6, counterexample to the error code: after a successful
`generateTransaction` of `"ref6"`, a second `generateTransaction` with
the same reference but recipient 0 fails with `InvalidRecipient` — not
with `ReferenceAlreadyUsed` as the claim states for arbitrary
recipient/amount/token. -/
theorem C6_counterexample_second_generate_error :
    (generateTransaction [] 1 0 3 5 0 "ref6").result = Except.ok (hashRef "ref6") ∧
    (generateTransaction c6Store 1 1 0 5 0 "ref6").result =
      Except.error PayError.InvalidRecipient ∧
    (generateTransaction c6Store 1 1 0 5 0 "ref6").result ≠
      Except.error PayError.ReferenceAlreadyUsed := by
  refine ⟨rfl, rfl, ?_⟩
  rw [show (generateTransaction c6Store 1 1 0 5 0 "ref6").result =
        Except.error PayError.InvalidRecipient from rfl]
  simp

/-- Claim C6 as amended: after a successful `generateTransaction` with
reference `ref` by a caller with nonzero address, every later
`generateTransaction` with the same `ref` — after any interleaved
generate/settle/cancel operations — fails and leaves the store
unchanged, whatever amount, recipient or token it supplies; the error is
`ReferenceAlreadyUsed` whenever the later call's recipient and amount
are nonzero (and the corresponding input-validation error otherwise).
So `generate` succeeds at most once per reference. -/
theorem C6_generate_succeeds_at_most_once (st : Store)
    (sender now recipient amount token : Nat) (ref : String) (x : Nat)
    (ops : List Op) (st2 : Store) (s2 n2 r2 a2 t2 : Nat)
    (hs : sender ≠ 0)
    (hok : (generateTransaction st sender now recipient amount token ref).result =
      Except.ok x)
    (hst2 : st2 =
      applyOps (generateTransaction st sender now recipient amount token ref).store ops) :
    (generateTransaction st2 s2 n2 r2 a2 t2 ref).store = st2 ∧
    (∀ y, (generateTransaction st2 s2 n2 r2 a2 t2 ref).result ≠ Except.ok y) ∧
    (r2 ≠ 0 → a2 ≠ 0 →
      (generateTransaction st2 s2 n2 r2 a2 t2 ref).result =
        Except.error PayError.ReferenceAlreadyUsed) := by
  rcases generateTransaction_shape st sender now recipient amount token ref with
    ⟨e, he⟩ | ⟨h0, hstw, hres⟩
  · rw [he] at hok; exact absurd hok (by simp)
  · have href : ref.length ≠ 0 := by
      intro hlen
      by_cases hr : recipient = 0
      · simp [generateTransaction, hr] at hok
      · by_cases ha : amount = 0
        · simp [generateTransaction, hr, ha] at hok
        · simp [generateTransaction, hr, ha, hlen] at hok
    have hfrom1 :
        (getTx (generateTransaction st sender now recipient amount token ref).store
          (hashRef ref)).«from» = sender := by
      rw [hstw, getTx_setTx_same]
    have hfrom2 : (getTx st2 (hashRef ref)).«from» = sender := by
      rw [hst2, from_getTx_applyOps ops _ (hashRef ref) (by rw [hfrom1]; exact hs), hfrom1]
    by_cases hr2 : r2 = 0
    · refine ⟨by simp [generateTransaction, hr2], fun y => by simp [generateTransaction, hr2],
        fun hc => absurd hr2 hc⟩
    · by_cases ha2 : a2 = 0
      · refine ⟨by simp [generateTransaction, hr2, ha2],
          fun y => by simp [generateTransaction, hr2, ha2],
          fun _ hc => absurd ha2 hc⟩
      · have hf : (getTx st2 (hashRef ref)).«from» ≠ 0 := by rw [hfrom2]; exact hs
        have hgen : generateTransaction st2 s2 n2 r2 a2 t2 ref =
            { store := st2, result := Except.error PayError.ReferenceAlreadyUsed,
              events := [] } := by
          simp [generateTransaction, hr2, ha2, href, hf]
        exact ⟨by rw [hgen], fun y => by rw [hgen]; simp, fun _ _ => by rw [hgen]⟩

/-- Witness for the amended C6: a concrete second `generateTransaction`
with reference `"r6w"` fails with `ReferenceAlreadyUsed`. -/
theorem C6_witness :
    (generateTransaction
        (applyOps (generateTransaction [] 1 0 3 5 0 "r6w").store [])
        2 1 4 6 0 "r6w").result = Except.error PayError.ReferenceAlreadyUsed :=
  (C6_generate_succeeds_at_most_once [] 1 0 3 5 0 "r6w" (hashRef "r6w") []
    (applyOps (generateTransaction [] 1 0 3 5 0 "r6w").store []) 2 1 4 6 0
    (by decide) rfl rfl).2.2 (by decide) (by decide)

/-- Claim C7: every failing settle is atomic.  A reverted `executePay`
returns the store unchanged with no durable effects; an attached value
(native) or `sentAmount` (token) below the required amount yields
`InsufficientFunds`; a failing recipient payment, token pull, or refund
yields `TransferFailed`. -/
theorem C7_failing_settle_is_atomic (env : Env) (st : Store) (sender now : Nat)
    (ref : String) (sa mv : Nat) :
    (∀ e, (executePay env st sender now ref sa mv).result = Except.error e →
        (executePay env st sender now ref sa mv).store = st ∧
        (executePay env st sender now ref sa mv).events = []) ∧
    ((getTx st (hashRef ref)).status = TxStatus.Pending →
      (getTx st (hashRef ref)).token = 0 →
      mv < (getTx st (hashRef ref)).amount →
      (executePay env st sender now ref sa mv).result =
        Except.error PayError.InsufficientFunds) ∧
    ((getTx st (hashRef ref)).status = TxStatus.Pending →
      (getTx st (hashRef ref)).token ≠ 0 →
      sa < (getTx st (hashRef ref)).amount →
      (executePay env st sender now ref sa mv).result =
        Except.error PayError.InsufficientFunds) ∧
    ((getTx st (hashRef ref)).status = TxStatus.Pending →
      (getTx st (hashRef ref)).token = 0 →
      (getTx st (hashRef ref)).amount ≤ mv →
      env.nativeOk (getTx st (hashRef ref)).«to» mv = false →
      (executePay env st sender now ref sa mv).result =
        Except.error PayError.TransferFailed) ∧
    ((getTx st (hashRef ref)).status = TxStatus.Pending →
      (getTx st (hashRef ref)).token = 0 →
      (getTx st (hashRef ref)).amount ≤ mv →
      0 < mv - (getTx st (hashRef ref)).amount →
      env.nativeOk sender (mv - (getTx st (hashRef ref)).amount) = false →
      (executePay env st sender now ref sa mv).result =
        Except.error PayError.TransferFailed) ∧
    ((getTx st (hashRef ref)).status = TxStatus.Pending →
      (getTx st (hashRef ref)).token ≠ 0 →
      (getTx st (hashRef ref)).amount ≤ sa →
      env.pullOk (getTx st (hashRef ref)).token sender sa = false →
      (executePay env st sender now ref sa mv).result =
        Except.error PayError.TransferFailed) ∧
    ((getTx st (hashRef ref)).status = TxStatus.Pending →
      (getTx st (hashRef ref)).token ≠ 0 →
      (getTx st (hashRef ref)).amount ≤ sa →
      env.payOk (getTx st (hashRef ref)).token (getTx st (hashRef ref)).«to»
        (getTx st (hashRef ref)).amount = false →
      (executePay env st sender now ref sa mv).result =
        Except.error PayError.TransferFailed) ∧
    ((getTx st (hashRef ref)).status = TxStatus.Pending →
      (getTx st (hashRef ref)).token ≠ 0 →
      (getTx st (hashRef ref)).amount ≤ sa →
      0 < sa - (getTx st (hashRef ref)).amount →
      env.payOk (getTx st (hashRef ref)).token sender
        (sa - (getTx st (hashRef ref)).amount) = false →
      (executePay env st sender now ref sa mv).result =
        Except.error PayError.TransferFailed) := by
  refine ⟨?_, ?_, ?_, ?_, ?_, ?_, ?_, ?_⟩
  · intro e hre
    rcases executePay_shape env st sender now ref sa mv with ⟨e2, he⟩ | ⟨x, hst, hres⟩
    · rw [he]; exact ⟨rfl, rfl⟩
    · rw [hres] at hre; exact absurd hre (by simp)
  · intro h1 h2 h3
    rw [executePay, if_pos h1, if_pos h2]
    simp [settleNative, not_le.mpr h3]
  · intro h1 h2 h3
    rw [executePay, if_pos h1, if_neg h2]
    simp [settleToken, not_le.mpr h3]
  · intro h1 h2 h3 h4
    rw [executePay, if_pos h1, if_pos h2]
    simp [settleNative, h3, h4]
  · intro h1 h2 h3 h4 h5
    rw [executePay, if_pos h1, if_pos h2]
    by_cases hrec : env.nativeOk (getTx st (hashRef ref)).«to» mv = true
    · simp [settleNative, h3, hrec, h4, h5]
    · simp [settleNative, h3, hrec]
  · intro h1 h2 h3 h4
    rw [executePay, if_pos h1, if_neg h2]
    simp [settleToken, h3, h4]
  · intro h1 h2 h3 h4
    rw [executePay, if_pos h1, if_neg h2]
    by_cases hpull : env.pullOk (getTx st (hashRef ref)).token sender sa = true
    · simp [settleToken, h3, hpull, h4]
    · simp [settleToken, h3, hpull]
  · intro h1 h2 h3 h4 h5
    rw [executePay, if_pos h1, if_neg h2]
    by_cases hpull : env.pullOk (getTx st (hashRef ref)).token sender sa = true
    · by_cases hpay : env.payOk (getTx st (hashRef ref)).token
          (getTx st (hashRef ref)).«to» (getTx st (hashRef ref)).amount = true
      · simp [settleToken, h3, hpull, hpay, h4, h5]
      · simp [settleToken, h3, hpull, hpay]
    · simp [settleToken, h3, hpull]

/-- Witness for C7: settling the Pending record of `c1Store`
(amount 1) with attached value 0 fails with `InsufficientFunds`. -/
theorem C7_witness :
    (executePay envAllOk c1Store 1 7 "ref1" 0 0).result =
      Except.error PayError.InsufficientFunds :=
  (C7_failing_settle_is_atomic envAllOk c1Store 1 7 "ref1" 0 0).2.1 rfl rfl (by decide)

/-- Claim C8: `generateTransaction` fails with `InvalidRecipient` when
the recipient is the zero address, `InvalidAmount` when the amount is
zero, `EmptyReference` when the reference is empty, and
`ReferenceAlreadyUsed` when a record already occupies `Hash(reference)`
(nonzero `from` sentinel); otherwise it succeeds, stores a new Pending
record with `from` = caller, `to` = recipient, the given amount and
token, the current time as timestamp and `refunded = 0`, performs no
value transfer, and returns the reference hash. -/
theorem C8_generate_spec (st : Store) (sender now recipient amount token : Nat)
    (ref : String) :
    (recipient = 0 → generateTransaction st sender now recipient amount token ref =
        { store := st, result := Except.error PayError.InvalidRecipient, events := [] }) ∧
    (recipient ≠ 0 → amount = 0 →
      generateTransaction st sender now recipient amount token ref =
        { store := st, result := Except.error PayError.InvalidAmount, events := [] }) ∧
    (recipient ≠ 0 → amount ≠ 0 → ref.length = 0 →
      generateTransaction st sender now recipient amount token ref =
        { store := st, result := Except.error PayError.EmptyReference, events := [] }) ∧
    (recipient ≠ 0 → amount ≠ 0 → ref.length ≠ 0 →
      (getTx st (hashRef ref)).«from» ≠ 0 →
      generateTransaction st sender now recipient amount token ref =
        { store := st, result := Except.error PayError.ReferenceAlreadyUsed,
          events := [] }) ∧
    (recipient ≠ 0 → amount ≠ 0 → ref.length ≠ 0 →
      (getTx st (hashRef ref)).«from» = 0 →
      generateTransaction st sender now recipient amount token ref =
        { store := setTx st (hashRef ref)
            { «from» := sender, «to» := recipient, amount := amount, token := token,
              timestamp := now, status := TxStatus.Pending, refunded := 0 },
          result := Except.ok (hashRef ref),
          events := [Event.storeWrite (hashRef ref)
            { «from» := sender, «to» := recipient, amount := amount, token := token,
              timestamp := now, status := TxStatus.Pending, refunded := 0 }] }) := by
  refine ⟨?_, ?_, ?_, ?_, ?_⟩
  · intro h1; simp [generateTransaction, h1]
  · intro h1 h2; simp [generateTransaction, h1, h2]
  · intro h1 h2 h3; simp [generateTransaction, h1, h2, h3]
  · intro h1 h2 h3 h4; simp [generateTransaction, h1, h2, h3, h4]
  · intro h1 h2 h3 h4; simp [generateTransaction, h1, h2, h3, h4]

/-- Witness for C8: a concrete successful `generateTransaction`. -/
theorem C8_witness :
    generateTransaction [] 1 0 2 5 0 "ref8" =
      { store := setTx [] (hashRef "ref8")
          { «from» := 1, «to» := 2, amount := 5, token := 0,
            timestamp := 0, status := TxStatus.Pending, refunded := 0 },
        result := Except.ok (hashRef "ref8"),
        events := [Event.storeWrite (hashRef "ref8")
          { «from» := 1, «to» := 2, amount := 5, token := 0,
            timestamp := 0, status := TxStatus.Pending, refunded := 0 }] } :=
  (C8_generate_spec [] 1 0 2 5 0 "ref8").2.2.2.2 (by decide) (by decide) (by decide) rfl

/-- Claim C9: `cancelTransaction` succeeds exactly when the caller (a
nonzero address) equals the record's `from` — which then implies the
record exists — and the status is Pending, failing with `Unauthorized`
or `InvalidState` otherwise; on success it sets `status = Cancelled` and
`timestamp = now`, moves no funds (the only durable effect is the one
storage write), leaves `from`, `to`, `amount`, `token` and `refunded`
unchanged, and touches no other reference hash. -/
theorem C9_cancel_spec (st : Store) (sender now rh : Nat) (hs : sender ≠ 0) :
    ((getTx st rh).«from» ≠ sender →
      cancelTransaction st sender now rh =
        { store := st, result := Except.error PayError.Unauthorized, events := [] }) ∧
    ((getTx st rh).«from» = sender → (getTx st rh).status ≠ TxStatus.Pending →
      cancelTransaction st sender now rh =
        { store := st, result := Except.error PayError.InvalidState, events := [] }) ∧
    ((getTx st rh).«from» = sender → (getTx st rh).status = TxStatus.Pending →
      (cancelTransaction st sender now rh).result = Except.ok () ∧
      (cancelTransaction st sender now rh).events =
        [Event.storeWrite rh (cancelledTxn (getTx st rh) now)] ∧
      getTx (cancelTransaction st sender now rh).store rh =
        cancelledTxn (getTx st rh) now ∧
      (cancelledTxn (getTx st rh) now).status = TxStatus.Cancelled ∧
      (cancelledTxn (getTx st rh) now).timestamp = now ∧
      (cancelledTxn (getTx st rh) now).«from» = (getTx st rh).«from» ∧
      (cancelledTxn (getTx st rh) now).«to» = (getTx st rh).«to» ∧
      (cancelledTxn (getTx st rh) now).amount = (getTx st rh).amount ∧
      (cancelledTxn (getTx st rh) now).token = (getTx st rh).token ∧
      (cancelledTxn (getTx st rh) now).refunded = (getTx st rh).refunded ∧
      (∀ k, k ≠ rh →
        getTx (cancelTransaction st sender now rh).store k = getTx st k)) ∧
    (∀ u, (cancelTransaction st sender now rh).result = Except.ok u →
      (getTx st rh).«from» = sender ∧ (getTx st rh).«from» ≠ 0 ∧
      (getTx st rh).status = TxStatus.Pending) := by
  refine ⟨?_, ?_, ?_, ?_⟩
  · intro h1; simp [cancelTransaction, h1]
  · intro h1 h2; simp [cancelTransaction, h1, h2]
  · intro h1 h2
    have hc : cancelTransaction st sender now rh =
        { store := setTx st rh (cancelledTxn (getTx st rh) now),
          result := Except.ok (),
          events := [Event.storeWrite rh (cancelledTxn (getTx st rh) now)] } := by
      simp [cancelTransaction, h1, h2]
    refine ⟨by rw [hc], by rw [hc], by rw [hc]; exact getTx_setTx_same st rh _,
      by simp [cancelledTxn], by simp [cancelledTxn], by simp [cancelledTxn],
      by simp [cancelledTxn], by simp [cancelledTxn], by simp [cancelledTxn],
      by simp [cancelledTxn], ?_⟩
    intro k hk
    rw [hc]
    exact getTx_setTx_other st rh k _ hk
  · intro u hu
    rcases cancelTransaction_shape st sender now rh with ⟨e, he⟩ | ⟨hf, hp, hstw, hres⟩
    · rw [he] at hu; exact absurd hu (by simp)
    · exact ⟨hf, by rw [hf]; exact hs, hp⟩

/-- Witness for C9: address 1 cancels its own Pending record. -/
theorem C9_witness :
    (cancelTransaction c9Store 1 4 (hashRef "ref9")).result = Except.ok () :=
  ((C9_cancel_spec c9Store 1 4 (hashRef "ref9") (by decide)).2.2.1 rfl rfl).1

/-- Claim C10: a successful `executePay` or `cancelTransaction` changes
only the `status`, `timestamp` and `refunded` fields of the settled or
cancelled record — `from`, `to`, `amount` and `token` are identical
before and after (and `refunded` too for cancel) — and the record under
every other reference hash is entirely unchanged. -/
theorem C10_settle_and_cancel_frame :
    (∀ (env : Env) (st : Store) (sender now : Nat) (ref : String) (sa mv x : Nat),
      (executePay env st sender now ref sa mv).result = Except.ok x →
      (getTx (executePay env st sender now ref sa mv).store (hashRef ref)).«from» =
        (getTx st (hashRef ref)).«from» ∧
      (getTx (executePay env st sender now ref sa mv).store (hashRef ref)).«to» =
        (getTx st (hashRef ref)).«to» ∧
      (getTx (executePay env st sender now ref sa mv).store (hashRef ref)).amount =
        (getTx st (hashRef ref)).amount ∧
      (getTx (executePay env st sender now ref sa mv).store (hashRef ref)).token =
        (getTx st (hashRef ref)).token ∧
      (∀ k, k ≠ hashRef ref →
        getTx (executePay env st sender now ref sa mv).store k = getTx st k)) ∧
    (∀ (st : Store) (sender now rh : Nat),
      (cancelTransaction st sender now rh).result = Except.ok () →
      (getTx (cancelTransaction st sender now rh).store rh).«from» =
        (getTx st rh).«from» ∧
      (getTx (cancelTransaction st sender now rh).store rh).«to» =
        (getTx st rh).«to» ∧
      (getTx (cancelTransaction st sender now rh).store rh).amount =
        (getTx st rh).amount ∧
      (getTx (cancelTransaction st sender now rh).store rh).token =
        (getTx st rh).token ∧
      (getTx (cancelTransaction st sender now rh).store rh).refunded =
        (getTx st rh).refunded ∧
      (∀ k, k ≠ rh →
        getTx (cancelTransaction st sender now rh).store k = getTx st k)) := by
  constructor
  · intro env st sender now ref sa mv x hok
    rcases executePay_shape env st sender now ref sa mv with ⟨e, he⟩ | ⟨x2, hst, hres⟩
    · rw [he] at hok; exact absurd hok (by simp)
    · refine ⟨?_, ?_, ?_, ?_, ?_⟩
      · rw [hst, getTx_setTx_same]; simp [paidTxn]
      · rw [hst, getTx_setTx_same]; simp [paidTxn]
      · rw [hst, getTx_setTx_same]; simp [paidTxn]
      · rw [hst, getTx_setTx_same]; simp [paidTxn]
      · intro k hk; rw [hst]; exact getTx_setTx_other st (hashRef ref) k _ hk
  · intro st sender now rh hok
    rcases cancelTransaction_shape st sender now rh with ⟨e, he⟩ | ⟨hf, hp, hstw, hres⟩
    · rw [he] at hok; exact absurd hok (by simp)
    · refine ⟨?_, ?_, ?_, ?_, ?_, ?_⟩
      · rw [hstw, getTx_setTx_same]; simp [cancelledTxn]
      · rw [hstw, getTx_setTx_same]; simp [cancelledTxn]
      · rw [hstw, getTx_setTx_same]; simp [cancelledTxn]
      · rw [hstw, getTx_setTx_same]; simp [cancelledTxn]
      · rw [hstw, getTx_setTx_same]; simp [cancelledTxn]
      · intro k hk; rw [hstw]; exact getTx_setTx_other st rh k _ hk

/-- Witness for C10: the settled record of `c1Store` keeps its
`amount` field across the successful settlement. -/
theorem C10_witness :
    (getTx (executePay envAllOk c1Store 1 7 "ref1" 0 2).store (hashRef "ref1")).amount =
      (getTx c1Store (hashRef "ref1")).amount :=
  ((C10_settle_and_cancel_frame.1 envAllOk c1Store 1 7 "ref1" 0 2 1 rfl).2.2.1)

end PayNova
